import Mathlib

/-!
Verification of the opencopilot backend core against its specification.

The Python sources embedded here are:
  backend/src/domain/chat/utils.py
  backend/src/domain/chat/on_user_message_streaming_use_case.py
  backend/src/authorization/create_access_token.py

Python strings are modelled as `List Char`; process-wide `settings` values
are passed as explicit parameters; collaborator objects (history repository,
document store) are passed as functions.  Filesystem work (`os.makedirs`,
prompt-template file reads) has no observable effect on the properties
below and is represented by passing template text as a parameter.
-/

namespace OpenCopilot

/-! ## Python string primitives

`replaceChar s c r` is Python `s.replace(c, r)` for a one-character
pattern `c` (every occurrence replaced).  `startsWith s pat` is Python
`s.startswith(pat)`.  `replaceFirst s pat rep` is Python
`s.replace(pat, rep, 1)` (first occurrence only).  `containsSub s pat`
is Python `pat in s`.  `splitFirst s pat` locates the first occurrence
of `pat` in `s`, returning the text before and after it. -/

def replaceChar : List Char → Char → List Char → List Char
  | [], _, _ => []
  | a :: s, c, r => (if a = c then r else [a]) ++ replaceChar s c r

def startsWith : List Char → List Char → Bool
  | _, [] => true
  | [], _ :: _ => false
  | a :: s, b :: p => a = b && startsWith s p

def replaceFirst : List Char → List Char → List Char → List Char
  | [], _, _ => []
  | a :: s, pat, rep =>
    if startsWith (a :: s) pat then rep ++ (a :: s).drop pat.length
    else a :: replaceFirst s pat rep

def containsSub : List Char → List Char → Bool
  | [], pat => pat.isEmpty
  | a :: s, pat => startsWith (a :: s) pat || containsSub s pat

def splitFirst : List Char → List Char → Option (List Char × List Char)
  | [], pat => if pat.isEmpty then some ([], []) else none
  | a :: s, pat =>
    if startsWith (a :: s) pat then some ([], (a :: s).drop pat.length)
    else
      match splitFirst s pat with
      | some (p, q) => some (a :: p, q)
      | none => none

/-- The left curly-brace character used by Python format-string placeholders. -/
def lb : Char := Char.ofNat 123

/-- The right curly-brace character used by Python format-string placeholders. -/
def rb : Char := Char.ofNat 125

/-- The placeholder text `{history}` appearing in prompt templates. -/
def historyPlaceholder : List Char := String.toList ("\x7bhistory\x7d")

/-- The placeholder text `{question}` appearing in the function prompt template. -/
def questionPlaceholder : List Char := String.toList ("\x7bquestion\x7d")

/-- The placeholder text `{context}` appearing in system-message templates. -/
def contextPlaceholder : List Char := String.toList ("\x7bcontext\x7d")

/-! ## utils.py -/

/-- `History` from utils.py: the rendered template and the formatted
history block. -/
structure History where
  template_with_history : List Char
  formatted_history : List Char
  deriving DecidableEq, Repr

/-- `add_history(template, chat_id, history_repository)` from utils.py.
The history repository collaborator is modelled by its
`get_prompt_history(chat_id, PROMPT_HISTORY_INCLUDED_COUNT)` capability,
a function from chat id to history text (the turn-count limit is
internal to that call).  `os.makedirs` is a filesystem side effect with
no bearing on the returned value. -/
def add_history (template : List Char) (chat_id : String)
    (get_prompt_history : String → List Char) : History :=
  let history0 := get_prompt_history chat_id
  let history := replaceChar (replaceChar history0 lb [lb, lb]) rb [rb, rb]
  { template_with_history := replaceFirst template historyPlaceholder history,
    formatted_history := history }

/-- Modelled from the spec: single-pass brace doubling, in which every
literal left brace becomes two left braces and every literal right brace
becomes two right braces.  The source performs two sequential
`str.replace` passes instead; their agreement is proved below. -/
def doubleBraces : List Char → List Char
  | [] => []
  | c :: s =>
    (if c = lb then [lb, lb] else if c = rb then [rb, rb] else [c]) ++ doubleBraces s

/-- Truthiness of the optional `settings.UNITY_COPILOT_URL` value:
Python treats both `None` and the empty string as false. -/
def urlTruthy : Option String → Bool
  | none => false
  | some u => u ≠ ""

/-- `get_unity_communication_prompt(domain_input, history_repository)` from
utils.py.  `settings.UNITY_COPILOT_URL` and the text returned by
`get_function_system_message()` (a file read) are parameters; the user
message `domain_input.message` and `domain_input.chat_id` are passed
directly. -/
def get_unity_communication_prompt (url : Option String)
    (function_template : List Char) (message : List Char) (chat_id : String)
    (get_prompt_history : String → List Char) : Option (List Char) :=
  if urlTruthy url then
    let unity_history := add_history function_template chat_id get_prompt_history
    some (replaceFirst unity_history.template_with_history questionPlaceholder message)
  else
    none

/-! ## on_user_message_streaming_use_case.py -/

/-- `UserMessageInput` from the chat entities: the caller-supplied input
for one chat turn. -/
structure UserMessageInput where
  chat_id : String
  message : String
  response_message_id : String
  deriving DecidableEq, Repr

/-- A loading-message payload: the JSON object found under the
`loading_message` key of a raw channel event, modelled as an association
list of fields. -/
abbrev Dict := List (String × String)

/-- Modelled from the spec: `LoadingMessage` (chat entities module, not in
the sources given) is an opaque status payload built from the raw dict by
`LoadingMessage.from_dict`; the core never inspects it. -/
structure LoadingMessage where
  fields : Dict
  deriving DecidableEq, Repr

/-- `LoadingMessage.from_dict` wraps the raw payload. -/
def LoadingMessage.from_dict (d : Dict) : LoadingMessage :=
  { fields := d }

/-- One raw channel event after `json.loads`: a JSON object whose
recognized optional keys are `token` and `loading_message`.  `none`
means the key is absent. -/
structure Event where
  token : Option String
  loading_message : Option Dict
  deriving DecidableEq, Repr

/-- `StreamingChunk` from the chat entities, with the fields the use case
populates. -/
structure StreamingChunk where
  chat_id : String
  text : String
  sources : List String
  loading_message : Option LoadingMessage := none
  error : Option String := none
  deriving DecidableEq, Repr

/-- The chunk emitted by the `except` handler of `execute`:
`StreamingChunk(chat_id=..., text="", sources=[], error=f"OpenAI error:
{type(exc).__name__}")`, where `excName` is the exception class name. -/
def errorChunk (chat_id : String) (excName : String) : StreamingChunk :=
  { chat_id := chat_id, text := "", sources := [],
    error := some (String.append ("OpenAI error: ") excName) }

/-- The body of the `async for` loop of `execute` for one parsed event:
`if token := parsed.get("token"): yield ...` then
`if loading_message := parsed.get("loading_message"): yield ...`.
The two `if`s are independent walrus-assignments guarded by Python
truthiness, so an absent key and a falsy value (empty string, empty
dict) alike emit nothing. -/
def translateEvent (chat_id : String) (parsed : Event) : List StreamingChunk :=
  (match parsed.token with
   | some token =>
     if token ≠ "" then
       [{ chat_id := chat_id, text := token, sources := [] }]
     else []
   | none => []) ++
  (match parsed.loading_message with
   | some d =>
     if d ≠ [] then
       [{ chat_id := chat_id, text := "", sources := [],
          loading_message := some (LoadingMessage.from_dict d) }]
     else []
   | none => [])

/-- The whole `async for callback_result in callback.aiter()` loop over the
events the channel delivers, in delivery order. -/
def drainChannel (chat_id : String) : List Event → List StreamingChunk
  | [] => []
  | e :: es => translateEvent chat_id e ++ drainChannel chat_id es

/-- Observable side effects of the `finally` block of `execute`:
`validate_urls_use_case.execute(result, chat_id)` and
`history_repository.save_history(message, result, ..., chat_id,
response_message_id)`.  The two timestamp arguments are wall-clock reads
with no influence on control flow and are omitted. -/
inductive Effect where
  | validateUrls (result : String) (chat_id : String)
  | saveHistory (message : String) (result : String) (chat_id : String)
      (response_message_id : String)
  deriving DecidableEq, Repr

/-- Counts the `saveHistory` effects in a trace. -/
def countSaves : List Effect → Nat
  | [] => 0
  | Effect.saveHistory _ _ _ _ :: es => countSaves es + 1
  | _ :: es => countSaves es

/-- Counts the `validateUrls` effects in a trace. -/
def countValidations : List Effect → Nat
  | [] => 0
  | Effect.validateUrls _ _ :: es => countValidations es + 1
  | _ :: es => countValidations es

/-- Everything a run of the streaming generator produces: the chunks
yielded to the caller, in order, and the finalization effects performed. -/
structure StreamRun where
  chunks : List StreamingChunk
  effects : List Effect
  deriving DecidableEq, Repr

/-- The streaming phase of `execute` from
on_user_message_streaming_use_case.py (lines 60-99): the
`try`/`except`/`finally` block around the channel drain.

The channel outcome is given by `events`, the raw events delivered
before the channel either completes or raises, and `channelFailure`,
`some excName` when iteration or parsing raises after those events
(`none` when the channel completes normally).  `task` is the awaited
background-task outcome: `Except.ok r` when `await task` returns and
`task.result()` yields `r`, `Except.error excName` when awaiting raises.

`result` starts as the empty string and is assigned only after a fully
successful await; any exception is caught, logged, and converted into a
single `errorChunk`; the `finally` block always runs `validate_urls`
then `save_history` with whatever `result` holds. -/
def execute (domain_input : UserMessageInput) (events : List Event)
    (channelFailure : Option String) (task : Except String String) :
    StreamRun :=
  let streamed := drainChannel domain_input.chat_id events
  let finish := fun (body : List StreamingChunk) (result : String) =>
    { chunks := body,
      effects :=
        [Effect.validateUrls result domain_input.chat_id,
         Effect.saveHistory domain_input.message result domain_input.chat_id
           domain_input.response_message_id] : StreamRun }
  match channelFailure with
  | some excName => finish (streamed ++ [errorChunk domain_input.chat_id excName]) ""
  | none =>
    match task with
    | Except.error excName =>
      finish (streamed ++ [errorChunk domain_input.chat_id excName]) ""
    | Except.ok result => finish streamed result

/-- `_get_context` from on_user_message_streaming_use_case.py.  The
document store collaborator is modelled by its `find(query, k)`
capability; `settings.MAX_CONTEXT_DOCUMENTS_COUNT` is the `maxDocs`
parameter, and the fragment type is abstract.  The second component of
the result records the `find` calls made (query and `k` of each call),
so that claims about the store never being consulted are expressible. -/
def getContext {α : Type} (message : String) (system_message : List Char)
    (find : String → Nat → List α) (maxDocs : Nat) :
    List α × List (String × Nat) :=
  if containsSub system_message contextPlaceholder then
    let context : List α := []
    (context ++ find message (maxDocs - context.length),
     [(message, maxDocs - context.length)])
  else
    ([], [])

/-! ## create_access_token.py -/

/-- The settings consulted by token issuance. -/
structure AuthSettings where
  JWT_CLIENT_ID : String
  JWT_CLIENT_SECRET : String
  JWT_TOKEN_EXPIRATION_SECONDS : Int
  deriving DecidableEq, Repr

/-- The error raised on a credential mismatch
(`error_responses.InvalidCredentialsAPIError`). -/
inductive APIError where
  | invalidCredentials
  deriving DecidableEq, Repr

/-- The JWT payload dict built by `execute`. -/
structure JwtPayload where
  iat : Int
  exp : Int
  sub : String
  deriving DecidableEq, Repr

/-- The value of `jwt.encode(payload, key, algorithm)`: a token signed
with the given key and algorithm, carrying the payload. -/
structure SignedToken where
  payload : JwtPayload
  key : String
  algorithm : String
  deriving DecidableEq, Repr

/-- `execute(client_id, client_secret, user_id)` from
create_access_token.py.  `now` models the value of `time.time()` in
whole time-units (the two reads inside one call are treated as
coincident). -/
def create_access_token (settings : AuthSettings) (now : Int)
    (client_id : String) (client_secret : String) (user_id : String) :
    Except APIError SignedToken :=
  if client_id ≠ settings.JWT_CLIENT_ID ∨ client_secret ≠ settings.JWT_CLIENT_SECRET then
    Except.error APIError.invalidCredentials
  else
    Except.ok
      { payload :=
          { iat := now - 100,
            exp := now + settings.JWT_TOKEN_EXPIRATION_SECONDS,
            sub := user_id },
        key := settings.JWT_CLIENT_SECRET,
        algorithm := ("HS256") }

/-! ## Helper lemmas on the string primitives -/

theorem startsWith_nil (s : List Char) : startsWith s [] = true := by
  cases s <;> rfl

theorem startsWith_append (pat s : List Char) : startsWith (pat ++ s) pat = true := by
  induction pat with
  | nil => exact startsWith_nil s
  | cons b p ih => simp [startsWith, ih]

theorem startsWith_take (s pat : List Char) (h : startsWith s pat = true) :
    pat ++ s.drop pat.length = s := by
  induction pat generalizing s with
  | nil => simp
  | cons b p ih =>
    cases s with
    | nil => simp [startsWith] at h
    | cons a s2 =>
      simp only [startsWith, Bool.and_eq_true, decide_eq_true_eq] at h
      obtain ⟨hab, h2⟩ := h
      subst hab
      simpa using ih s2 h2

theorem splitFirst_spec {pat : List Char} (hpat : pat ≠ []) :
    ∀ {s p q : List Char}, splitFirst s pat = some (p, q) →
      s = p ++ pat ++ q ∧ ∀ rep, replaceFirst s pat rep = p ++ rep ++ q := by
  intro s
  induction s with
  | nil =>
    intro p q h
    have hempty : pat.isEmpty = false := by
      cases pat with
      | nil => exact absurd rfl hpat
      | cons x xs => rfl
    simp only [splitFirst, hempty, Bool.false_eq_true, if_false] at h
    exact absurd h (Option.noConfusion)
  | cons a s2 ih =>
    intro p q h
    by_cases hs : startsWith (a :: s2) pat = true
    · simp only [splitFirst, hs, if_pos, Option.some.injEq, Prod.mk.injEq] at h
      obtain ⟨hp, hq⟩ := h
      subst hp
      subst hq
      refine ⟨by simpa using (startsWith_take _ _ hs).symm, ?_⟩
      intro rep
      simp [replaceFirst, hs]
    · have hs2 : startsWith (a :: s2) pat = false := by
        cases hx : startsWith (a :: s2) pat with
        | true => exact absurd hx hs
        | false => rfl
      simp only [splitFirst, hs2, Bool.false_eq_true, if_false] at h
      cases hrec : splitFirst s2 pat with
      | none => rw [hrec] at h; simp at h
      | some pq =>
        rw [hrec] at h
        obtain ⟨p2, q2⟩ := pq
        simp only [Option.some.injEq, Prod.mk.injEq] at h
        obtain ⟨hp, hq⟩ := h
        subst hp
        subst hq
        obtain ⟨ih1, ih2⟩ := ih hrec
        constructor
        · simp [ih1]
        · intro rep
          simp [replaceFirst, hs2, ih2 rep]

theorem replaceChar_append (a b : List Char) (c : Char) (r : List Char) :
    replaceChar (a ++ b) c r = replaceChar a c r ++ replaceChar b c r := by
  induction a with
  | nil => rfl
  | cons x xs ih => simp [replaceChar, ih]

theorem escape_eq_doubleBraces (h : List Char) :
    replaceChar (replaceChar h lb [lb, lb]) rb [rb, rb] = doubleBraces h := by
  induction h with
  | nil => rfl
  | cons c s ih =>
    have hlbrb : lb ≠ rb := by decide
    by_cases hc : c = lb
    · subst hc
      simp [replaceChar, doubleBraces, replaceChar_append, ih, hlbrb]
    · by_cases hc2 : c = rb
      · subst hc2
        simp [replaceChar, doubleBraces, replaceChar_append, ih, hlbrb, hc]
      · simp [replaceChar, doubleBraces, replaceChar_append, ih, hc, hc2]

/-! ## Claim theorems -/

/-- Claim C1: for every request that enters the streaming phase, whatever
the channel outcome (normal exhaustion or mid-stream exception) and
whatever the background-task outcome (success or failure when awaited),
the finalization step runs exactly once: the effect trace is exactly one
`validate_urls` call followed by one `save_history` call — never zero of
either, never more than one. -/
theorem C1_finalization_exactly_once (domain_input : UserMessageInput)
    (events : List Event) (channelFailure : Option String)
    (task : Except String String) :
    ∃ r : String,
      (execute domain_input events channelFailure task).effects =
        [Effect.validateUrls r domain_input.chat_id,
         Effect.saveHistory domain_input.message r domain_input.chat_id
           domain_input.response_message_id] ∧
      countValidations (execute domain_input events channelFailure task).effects = 1 ∧
      countSaves (execute domain_input events channelFailure task).effects = 1 := by
  cases channelFailure with
  | some excName => exact ⟨"", rfl, rfl, rfl⟩
  | none =>
    cases task with
    | error excName => exact ⟨"", rfl, rfl, rfl⟩
    | ok result => exact ⟨result, rfl, rfl, rfl⟩

/-- Claim C2: on either failure mode — an exception while iterating or
parsing the channel, or the background task failing when awaited — the
generator emits exactly one additional chunk after the chunks already
streamed, that chunk is last, its `error` field names the exception kind
(`OpenAI error: ` followed by the exception class name), and finalization
runs with the result captured before the failure, which on every failure
path is the empty string; no exception escapes: the run is a well-formed
chunk list plus finalization effects. -/
theorem C2_error_path_emits_one_error_chunk (domain_input : UserMessageInput)
    (events : List Event) (excName : String) (task : Except String String) :
    (execute domain_input events (some excName) task =
      { chunks := drainChannel domain_input.chat_id events ++
          [errorChunk domain_input.chat_id excName],
        effects := [Effect.validateUrls ("") domain_input.chat_id,
          Effect.saveHistory domain_input.message ("") domain_input.chat_id
            domain_input.response_message_id] }) ∧
    (execute domain_input events none (Except.error excName) =
      { chunks := drainChannel domain_input.chat_id events ++
          [errorChunk domain_input.chat_id excName],
        effects := [Effect.validateUrls ("") domain_input.chat_id,
          Effect.saveHistory domain_input.message ("") domain_input.chat_id
            domain_input.response_message_id] }) ∧
    (errorChunk domain_input.chat_id excName).error =
      some (String.append ("OpenAI error: ") excName) :=
  ⟨rfl, rfl, rfl⟩

/-- Claim C4: when the channel is exhausted without error and the
background task completes successfully, finalization receives the task's
returned result text (the authoritative full response), not the
concatenation of streamed tokens; in particular, for a channel emitting
`Hi` then ` there` and a task returning `Hi there`, the run is exactly
those two text chunks followed by `validate_urls` and `save_history`
with `Hi there`. -/
theorem C4_success_finalizes_with_task_result (domain_input : UserMessageInput)
    (events : List Event) (result : String) :
    (execute domain_input events none (Except.ok result) =
      { chunks := drainChannel domain_input.chat_id events,
        effects := [Effect.validateUrls result domain_input.chat_id,
          Effect.saveHistory domain_input.message result domain_input.chat_id
            domain_input.response_message_id] }) ∧
    (execute { chat_id := ("chat1"), message := ("hello"), response_message_id := ("r1") }
        [{ token := some ("Hi"), loading_message := none },
         { token := some (" there"), loading_message := none }]
        none (Except.ok ("Hi there")) =
      { chunks := [{ chat_id := ("chat1"), text := ("Hi"), sources := [] },
                   { chat_id := ("chat1"), text := (" there"), sources := [] }],
        effects := [Effect.validateUrls ("Hi there") ("chat1"),
          Effect.saveHistory ("hello") ("Hi there") ("chat1") ("r1")] }) := by
  refine ⟨rfl, ?_⟩
  simp [execute, drainChannel, translateEvent]

/-- Claim C3 counterexample: the raw event whose `token` value is the
empty string and whose `loading_message` value is the empty payload
carries both keys, yet the translation emits zero chunks — not the two
chunks (token chunk then loading-message chunk) the claim requires for
an event carrying both keys, and not a token chunk carrying the event's
token text.  The walrus-`if` guards test Python truthiness of the
values, not presence of the keys. -/
theorem C3_counterexample_falsy_values :
    (({ token := some (""), loading_message := some [] } : Event)).token.isSome = true ∧
    (({ token := some (""), loading_message := some [] } : Event)).loading_message.isSome = true ∧
    translateEvent ("c") { token := some (""), loading_message := some [] } = [] := by
  refine ⟨rfl, rfl, ?_⟩
  simp [translateEvent]

/-- Claim C3 as amended: for every raw channel event, the translation
emits a chunk with the event's token text and empty sources when the
event carries a truthy (non-empty) `token`, and a chunk with empty text
and the parsed loading message when it carries a truthy (non-empty)
`loading_message`; the checks are independent, so an event carrying both
truthy values yields exactly two chunks, token chunk first, an event
carrying neither truthy value (key absent or value empty) yields zero
chunks, and emission order follows event order. -/
theorem C3_event_translation (chat_id : String) (e : Event) :
    (∀ t d, e.token = some t → t ≠ "" → e.loading_message = some d → d ≠ [] →
      translateEvent chat_id e =
        [{ chat_id := chat_id, text := t, sources := [] },
         { chat_id := chat_id, text := "", sources := [],
           loading_message := some (LoadingMessage.from_dict d) }]) ∧
    (∀ t, e.token = some t → t ≠ "" →
      (e.loading_message = none ∨ e.loading_message = some []) →
      translateEvent chat_id e = [{ chat_id := chat_id, text := t, sources := [] }]) ∧
    (∀ d, (e.token = none ∨ e.token = some ("")) →
      e.loading_message = some d → d ≠ [] →
      translateEvent chat_id e =
        [{ chat_id := chat_id, text := "", sources := [],
           loading_message := some (LoadingMessage.from_dict d) }]) ∧
    ((e.token = none ∨ e.token = some ("")) →
      (e.loading_message = none ∨ e.loading_message = some []) →
      translateEvent chat_id e = []) ∧
    (∀ es, drainChannel chat_id (e :: es) =
      translateEvent chat_id e ++ drainChannel chat_id es) := by
  refine ⟨?_, ?_, ?_, ?_, fun es => rfl⟩
  · intro t d ht ht2 hd hd2
    simp [translateEvent, ht, hd, ht2, hd2]
  · intro t ht ht2 hd
    rcases hd with hd | hd <;> simp [translateEvent, ht, hd, ht2]
  · intro d ht hd hd2
    rcases ht with ht | ht <;> simp [translateEvent, ht, hd, hd2]
  · intro ht hd
    rcases ht with ht | ht <;> rcases hd with hd | hd <;>
      simp [translateEvent, ht, hd]

/-- Witness for the amended claim C3: the event carrying the token `a`
and the one-field loading payload yields exactly the token chunk
followed by the loading-message chunk. -/
theorem C3_event_translation_witness :
    translateEvent ("c") { token := some ("a"), loading_message := some [(("k"), ("v"))] } =
      [{ chat_id := ("c"), text := ("a"), sources := [] },
       { chat_id := ("c"), text := (""), sources := [],
         loading_message := some (LoadingMessage.from_dict [(("k"), ("v"))]) }] :=
  (C3_event_translation ("c")
      { token := some ("a"), loading_message := some [(("k"), ("v"))] }).1
    ("a") [(("k"), ("v"))] rfl (by decide) rfl (by decide)

/-- Claim C5: history formatting escapes every literal left brace into a
doubled left brace and every literal right brace into a doubled right
brace (the two sequential single-character replace passes agree with the
single-pass doubling `doubleBraces`), the escaping is applied to the
fetched history text before substitution, and the escaped history is
substituted verbatim into exactly the first occurrence of the
`{history}` placeholder — the rendered template is the text before the
placeholder, then the escaped history unchanged (no re-expansion and no
re-escaping of the doubled braces), then the text after it. -/
theorem C5_history_escaping_and_substitution (template pre suf : List Char)
    (chat_id : String) (get_prompt_history : String → List Char)
    (hsplit : splitFirst template historyPlaceholder = some (pre, suf)) :
    (add_history template chat_id get_prompt_history).formatted_history =
      doubleBraces (get_prompt_history chat_id) ∧
    (add_history template chat_id get_prompt_history).template_with_history =
      pre ++ doubleBraces (get_prompt_history chat_id) ++ suf ∧
    template = pre ++ historyPlaceholder ++ suf := by
  have hne : historyPlaceholder ≠ ([] : List Char) := by decide
  obtain ⟨hs, hrep⟩ := splitFirst_spec hne hsplit
  refine ⟨?_, ?_, hs⟩
  · simp [add_history, escape_eq_doubleBraces]
  · simp [add_history, escape_eq_doubleBraces, hrep]

/-- Witness for claim C5: a template with one placeholder and a history
containing one left and one right brace renders with both braces
doubled, in place, inside the otherwise unchanged template. -/
theorem C5_history_escaping_witness :
    (add_history (String.toList ("T \x7bhistory\x7d E")) ("c")
        (fun _ => String.toList ("a\x7bb\x7d"))).formatted_history =
      String.toList ("a\x7b\x7bb\x7d\x7d") ∧
    (add_history (String.toList ("T \x7bhistory\x7d E")) ("c")
        (fun _ => String.toList ("a\x7bb\x7d"))).template_with_history =
      String.toList ("T a\x7b\x7bb\x7d\x7d E") := by
  have h := C5_history_escaping_and_substitution (String.toList ("T \x7bhistory\x7d E"))
    (String.toList ("T ")) (String.toList (" E")) ("c")
    (fun _ => String.toList ("a\x7bb\x7d")) rfl
  exact ⟨h.1.trans rfl, h.2.1.trans rfl⟩

/-- Claim C8: formatting a template against an empty history text yields
a History whose formatted_history is the empty string and whose
template_with_history is the template with the first `{history}`
placeholder replaced by the empty string — in the split form the
placeholder simply disappears and the rest of the template is kept. -/
theorem C8_empty_history (template : List Char) (chat_id : String)
    (get_prompt_history : String → List Char)
    (hempty : get_prompt_history chat_id = []) :
    (add_history template chat_id get_prompt_history).formatted_history = [] ∧
    (add_history template chat_id get_prompt_history).template_with_history =
      replaceFirst template historyPlaceholder [] ∧
    (∀ pre suf, splitFirst template historyPlaceholder = some (pre, suf) →
      (add_history template chat_id get_prompt_history).template_with_history =
        pre ++ suf) := by
  refine ⟨?_, ?_, ?_⟩
  · simp [add_history, hempty, replaceChar]
  · simp [add_history, hempty, replaceChar]
  · intro pre suf hsplit
    have hne : historyPlaceholder ≠ ([] : List Char) := by decide
    obtain ⟨hs, hrep⟩ := splitFirst_spec hne hsplit
    simp [add_history, hempty, replaceChar, hrep]

/-- Witness for claim C8: with an empty history, the template
`A{history}B` renders as `AB` and the formatted history is empty. -/
theorem C8_empty_history_witness :
    (add_history (String.toList ("A\x7bhistory\x7dB")) ("c")
        (fun _ => [])).formatted_history = [] ∧
    (add_history (String.toList ("A\x7bhistory\x7dB")) ("c")
        (fun _ => [])).template_with_history = String.toList ("AB") := by
  have h := C8_empty_history (String.toList ("A\x7bhistory\x7dB")) ("c") (fun _ => []) rfl
  exact ⟨h.1, (h.2.2 (String.toList ("A")) (String.toList ("B")) rfl).trans rfl⟩

/-- Claim C6: context assembly — when the system message lacks the
`{context}` marker the document store is never consulted (no `find` call
is recorded) and the context is empty; when the marker is present,
`find` is called exactly once, with the user message as query and `k`
equal to the configured maximum context-document count, and the
fragments are returned exactly in the order the store returned them. -/
theorem C6_context_assembly {α : Type} (message : String) (system_message : List Char)
    (find : String → Nat → List α) (maxDocs : Nat) :
    (containsSub system_message contextPlaceholder = false →
      getContext message system_message find maxDocs = ([], [])) ∧
    (containsSub system_message contextPlaceholder = true →
      getContext message system_message find maxDocs =
        (find message maxDocs, [(message, maxDocs)])) := by
  constructor <;> intro h <;> simp [getContext, h]

/-- Witness for claim C6: a marker-free system message yields an empty
context and no store call; one with the marker yields exactly the
store's fragments and one recorded call with the full document budget. -/
theorem C6_context_assembly_witness :
    getContext ("q") (String.toList ("no marker")) (fun _ k => List.range k) 3 =
      ([], []) ∧
    getContext ("q") (String.toList ("use \x7bcontext\x7d here")) (fun _ k => List.range k) 3 =
      ([0, 1, 2], [(("q"), 3)]) := by
  refine ⟨(C6_context_assembly ("q") (String.toList ("no marker"))
      (fun _ k => List.range k) 3).1 rfl,
    ((C6_context_assembly ("q") (String.toList ("use \x7bcontext\x7d here"))
      (fun _ k => List.range k) 3).2 rfl).trans rfl⟩

/-- Claim C7: when the companion-feature URL setting is falsy (unset, in
particular) the communication prompt is the explicit absent value
`none`, not an empty string; when the URL is set, the prompt is the
function template with the escaped history substituted into `{history}`
and the user's literal message substituted into `{question}`. -/
theorem C7_unity_prompt_optional (url : Option String) (function_template : List Char)
    (message : List Char) (chat_id : String) (get_prompt_history : String → List Char) :
    (get_unity_communication_prompt none function_template message chat_id
        get_prompt_history = none) ∧
    (urlTruthy url = false →
      get_unity_communication_prompt url function_template message chat_id
        get_prompt_history = none) ∧
    (urlTruthy url = true →
      get_unity_communication_prompt url function_template message chat_id
        get_prompt_history =
        some (replaceFirst
          (replaceFirst function_template historyPlaceholder
            (doubleBraces (get_prompt_history chat_id)))
          questionPlaceholder message)) := by
  refine ⟨rfl, ?_, ?_⟩ <;> intro h <;>
    simp [get_unity_communication_prompt, h, add_history, escape_eq_doubleBraces]

/-- Witness for claim C7: with the URL unset the result is `none`; with
it set, history and question are substituted into the template. -/
theorem C7_unity_prompt_optional_witness :
    get_unity_communication_prompt none (String.toList ("F")) (String.toList ("m")) ("c")
      (fun _ => []) = none ∧
    get_unity_communication_prompt (some ("u"))
      (String.toList ("F \x7bhistory\x7d Q \x7bquestion\x7d")) (String.toList ("m")) ("c")
      (fun _ => String.toList ("h")) = some (String.toList ("F h Q m")) := by
  refine ⟨(C7_unity_prompt_optional none (String.toList ("F")) (String.toList ("m")) ("c")
      (fun _ => [])).1, ?_⟩
  have h := (C7_unity_prompt_optional (some ("u"))
      (String.toList ("F \x7bhistory\x7d Q \x7bquestion\x7d")) (String.toList ("m")) ("c")
      (fun _ => String.toList ("h"))).2.2 rfl
  exact h.trans rfl

/-- Claim C10: in the companion-prompt path, only the first occurrence
of `{question}` is replaced and the user message is inserted verbatim
with no brace escaping: the rendered prompt is the text before the
first `{question}` occurrence, then the raw message (brace characters
preserved unescaped, unlike history text), then the untouched remainder,
with any later `{question}` occurrence left in place. -/
theorem C10_question_substituted_literally (url : Option String)
    (function_template message : List Char) (chat_id : String)
    (get_prompt_history : String → List Char) (pre suf : List Char)
    (hurl : urlTruthy url = true)
    (hsplit : splitFirst
        (add_history function_template chat_id get_prompt_history).template_with_history
        questionPlaceholder = some (pre, suf)) :
    get_unity_communication_prompt url function_template message chat_id
      get_prompt_history = some (pre ++ message ++ suf) := by
  have hq : questionPlaceholder ≠ ([] : List Char) := by decide
  obtain ⟨hs, hrep⟩ := splitFirst_spec hq hsplit
  simp [get_unity_communication_prompt, hurl, hrep]

/-- Witness for claim C10: a message containing braces is inserted
unescaped into the first `{question}` slot and the second `{question}`
occurrence survives untouched. -/
theorem C10_question_substituted_literally_witness :
    get_unity_communication_prompt (some ("u"))
      (String.toList ("\x7bquestion\x7d and \x7bquestion\x7d"))
      (String.toList ("A\x7bB\x7d")) ("c") (fun _ => String.toList ("h")) =
      some (String.toList ("A\x7bB\x7d and \x7bquestion\x7d")) := by
  have h := C10_question_substituted_literally (some ("u"))
    (String.toList ("\x7bquestion\x7d and \x7bquestion\x7d")) (String.toList ("A\x7bB\x7d"))
    ("c") (fun _ => String.toList ("h")) [] (String.toList (" and \x7bquestion\x7d"))
    rfl rfl
  exact h.trans rfl

/-- Claim C9: token issuance — a client_id/client_secret pair differing
from the configured values fails with the invalid-credentials error and
returns no token; a matching pair returns a token signed with the
configured secret whose payload has subject equal to the given user_id,
issued-at equal to the current time minus 100 time-units (the clock-skew
backdate margin) and expiry equal to the current time plus the
configured expiration window. -/
theorem C9_token_issuance (settings : AuthSettings) (now : Int)
    (client_id : String) (client_secret : String) (user_id : String) :
    (¬(client_id = settings.JWT_CLIENT_ID ∧ client_secret = settings.JWT_CLIENT_SECRET) →
      create_access_token settings now client_id client_secret user_id =
        Except.error APIError.invalidCredentials) ∧
    (client_id = settings.JWT_CLIENT_ID → client_secret = settings.JWT_CLIENT_SECRET →
      create_access_token settings now client_id client_secret user_id =
        Except.ok
          { payload :=
              { iat := now - 100,
                exp := now + settings.JWT_TOKEN_EXPIRATION_SECONDS,
                sub := user_id },
            key := settings.JWT_CLIENT_SECRET,
            algorithm := ("HS256") }) := by
  constructor
  · intro h
    have h2 : client_id ≠ settings.JWT_CLIENT_ID ∨ client_secret ≠ settings.JWT_CLIENT_SECRET := by
      tauto
    unfold create_access_token
    rw [if_pos h2]
  · intro h1 h2
    subst h1
    subst h2
    simp [create_access_token]

/-- Witness for claim C9: with configured credentials `id`/`sec`, a bad
client id is rejected with the invalid-credentials error, and the
matching pair at time 1000 with a 3600-unit window yields a token with
issued-at 900, expiry 4600 and subject `alice`. -/
theorem C9_token_issuance_witness :
    create_access_token
        { JWT_CLIENT_ID := ("id"), JWT_CLIENT_SECRET := ("sec"),
          JWT_TOKEN_EXPIRATION_SECONDS := 3600 }
        1000 ("bad") ("sec") ("alice") =
      Except.error APIError.invalidCredentials ∧
    create_access_token
        { JWT_CLIENT_ID := ("id"), JWT_CLIENT_SECRET := ("sec"),
          JWT_TOKEN_EXPIRATION_SECONDS := 3600 }
        1000 ("id") ("sec") ("alice") =
      Except.ok
        { payload := { iat := 900, exp := 4600, sub := ("alice") },
          key := ("sec"), algorithm := ("HS256") } := by
  constructor
  · exact (C9_token_issuance _ _ _ _ _).1 (by decide)
  · exact ((C9_token_issuance _ _ _ _ _).2 rfl rfl).trans (by norm_num)

end OpenCopilot
